import Mathlib

/-!
Shallow embedding of the GenXAI event-source lifecycle framework and the
outbound retry queue, translated from the Python sources:

* genxai/connectors/base.py (Connector lifecycle state machine)
* genxai/triggers/base.py (BaseTrigger lifecycle state machine)
* genxai/connectors/webhook.py and genxai/triggers/webhook.py
  (push sources with HMAC signature verification)
* genxai/connectors/registry.py and genxai/triggers/registry.py
* genxai/triggers/schedule.py (ScheduleTrigger construction and arming)
* genxai/triggers/queue.py (QueueTrigger message normalization)
* applications/genxbot/backend/app/services/outbound_retry_queue.py

Overridable async methods such as validate_config, variant _start and
_stop, the external HMAC hex digest, and the injected delivery function
are modelled as explicit parameters: an Except String Unit value stands
for "the method returned or raised an exception carrying this message".
Emission is modelled by returning the list of events handed to emit.
-/

namespace GenXAI

/-- JSON-like values used for payloads, metadata and queue messages
(Python dict, str, int, bool, list). -/
inductive Value where
  | str : String → Value
  | int : Int → Value
  | bool : Bool → Value
  | dict : List (String × Value) → Value
  | list : List Value → Value
deriving Repr

/-- Python isinstance of dict. -/
def Value.isDict : Value → Bool
  | .dict _ => true
  | _ => false

/-- Raw request bodies (Python bytes). -/
abbrev Bytes := List Nat

/-- Python dict.get over a string-keyed mapping (keys unique, first
binding wins). -/
def dictGet (m : List (String × String)) (k : String) : Option String :=
  match m with
  | [] => none
  | (k₂, v) :: rest => if k₂ = k then some v else dictGet rest k

/-- Lifecycle status shared by connectors and triggers
(ConnectorStatus / TriggerStatus in the source). -/
inductive Status where
  | stopped
  | starting
  | running
  | stopping
  | error
deriving DecidableEq, Repr

/-- Result of an overridable method: ok, or an exception with message. -/
abbrev MethodResult := Except String Unit

/-- Observable state of a Connector: lifecycle status and the recorded
last error (the _last_error attribute in base.py). -/
structure ConnectorState where
  status : Status
  lastError : Option String
deriving DecidableEq, Repr

namespace Connector

/-- Connector.start from genxai/connectors/base.py. Inside the lock:
return unchanged when Running or Starting; otherwise run
validate_config then _start; on success set Running and clear the last
error; on exception set Error, record the message, and re-raise.
The second component is the exception propagated to the caller. -/
def start (s : ConnectorState) (validate_config : MethodResult)
    (underStart : MethodResult) : ConnectorState × Option String :=
  if s.status = .running ∨ s.status = .starting then (s, none)
  else
    match validate_config with
    | .error e => (⟨.error, some e⟩, some e)
    | .ok _ =>
      match underStart with
      | .error e => (⟨.error, some e⟩, some e)
      | .ok _ => (⟨.running, none⟩, none)

/-- Connector.stop from genxai/connectors/base.py: return unchanged when
Stopped or Stopping; otherwise run _stop; on success set Stopped and
clear the last error; on exception set Error, record, re-raise. -/
def stop (s : ConnectorState) (underStop : MethodResult) :
    ConnectorState × Option String :=
  if s.status = .stopped ∨ s.status = .stopping then (s, none)
  else
    match underStop with
    | .error e => (⟨.error, some e⟩, some e)
    | .ok _ => (⟨.stopped, none⟩, none)

end Connector

/-- Observable state of a BaseTrigger. The trigger base class records
only the status: it has no last-error attribute and its start sequence
has no validate_config step. -/
structure TriggerState where
  status : Status
deriving DecidableEq, Repr

namespace BaseTrigger

/-- BaseTrigger.start from genxai/triggers/base.py: return unchanged
when Running or Starting; otherwise run the variant _start; on success
set Running; on exception set Error and re-raise. -/
def start (s : TriggerState) (underStart : MethodResult) :
    TriggerState × Option String :=
  if s.status = .running ∨ s.status = .starting then (s, none)
  else
    match underStart with
    | .error e => (⟨.error⟩, some e)
    | .ok _ => (⟨.running⟩, none)

/-- BaseTrigger.stop from genxai/triggers/base.py. -/
def stop (s : TriggerState) (underStop : MethodResult) :
    TriggerState × Option String :=
  if s.status = .stopped ∨ s.status = .stopping then (s, none)
  else
    match underStop with
    | .error e => (⟨.error⟩, some e)
    | .ok _ => (⟨.stopped⟩, none)

end BaseTrigger

/-- Python truthiness of an optional string (None and the empty string
are falsy): used for `if self.secret` and `if self.cron`. -/
def strTruthy : Option String → Bool
  | none => false
  | some s => decide (s ≠ "")

/-- Python truthiness of an optional int (None and 0 are falsy): used
for `if self.interval_seconds`. -/
def intTruthy : Option Int → Bool
  | none => false
  | some n => decide (n ≠ 0)

/-- Event emitted by connectors (ConnectorEvent in base.py); the
timestamp is not modelled since no claim mentions it. -/
structure ConnectorEvent where
  connector_id : String
  payload : Value
  metadata : List (String × Value)
deriving Repr

/-- Event emitted by triggers (TriggerEvent in triggers/base.py). -/
structure TriggerEvent where
  trigger_id : String
  payload : Value
  metadata : List (String × Value)
deriving Repr

/-- Result dictionary returned by WebhookConnector.handle_request /
WebhookTrigger.handle_request. -/
inductive HandleResult where
  | accepted (source_id : String)
  | rejected (reason : String)
deriving DecidableEq, Repr

/-- The external HMAC hex digest: hmac.new(secret, payload, alg)
followed by hexdigest(), as a function of the hash algorithm name, the
secret and the raw payload bytes. -/
abbrev HmacFn := String → String → Bytes → String

/-- A header mapping turned into the metadata value attached on emit. -/
def headersValue (headers : List (String × String)) : Value :=
  .dict (headers.map fun p => (p.1, .str p.2))

/-- Configuration of a WebhookConnector
(genxai/connectors/webhook.py). -/
structure WebhookConnector where
  connector_id : String
  secret : Option String
  header_name : String
  hash_alg : String
deriving Repr

namespace WebhookConnector

/-- The expected signature header value: "hash_alg=hexdigest". -/
def expectedSignature (hmacHex : HmacFn) (c : WebhookConnector)
    (payload : Bytes) : String :=
  c.hash_alg ++ "=" ++ hmacHex c.hash_alg (c.secret.getD "") payload

/-- WebhookConnector.validate_signature: accept unconditionally when no
secret is configured; reject when the signature is missing or empty;
otherwise compare (constant-time in the source) against
"hash_alg=hexdigest". -/
def validate_signature (hmacHex : HmacFn) (c : WebhookConnector)
    (payload : Bytes) (signature : Option String) : Bool :=
  if strTruthy c.secret = false then true
  else
    match signature with
    | none => false
    | some sig =>
      if sig = "" then false
      else decide (expectedSignature hmacHex c payload = sig)

/-- WebhookConnector.handle_request. Returns the result dictionary and
the list of events handed to emit (empty on rejection). -/
def handle_request (hmacHex : HmacFn) (c : WebhookConnector)
    (payload : Value) (raw_body : Option Bytes)
    (headers : List (String × String)) :
    HandleResult × List ConnectorEvent :=
  let signature := dictGet headers c.header_name
  let accept : HandleResult × List ConnectorEvent :=
    (.accepted c.connector_id,
      [⟨c.connector_id, payload, [("headers", headersValue headers)]⟩])
  match raw_body with
  | some body =>
    if strTruthy c.secret then
      if validate_signature hmacHex c body signature then accept
      else (.rejected "invalid signature", [])
    else accept
  | none => accept

end WebhookConnector

/-- Configuration of a WebhookTrigger (genxai/triggers/webhook.py),
structurally identical to WebhookConnector. -/
structure WebhookTrigger where
  trigger_id : String
  secret : Option String
  header_name : String
  hash_alg : String
deriving Repr

namespace WebhookTrigger

/-- The expected signature header value for the trigger variant. -/
def expectedSignature (hmacHex : HmacFn) (t : WebhookTrigger)
    (payload : Bytes) : String :=
  t.hash_alg ++ "=" ++ hmacHex t.hash_alg (t.secret.getD "") payload

/-- WebhookTrigger.validate_signature. -/
def validate_signature (hmacHex : HmacFn) (t : WebhookTrigger)
    (payload : Bytes) (signature : Option String) : Bool :=
  if strTruthy t.secret = false then true
  else
    match signature with
    | none => false
    | some sig =>
      if sig = "" then false
      else decide (expectedSignature hmacHex t payload = sig)

/-- WebhookTrigger.handle_request. -/
def handle_request (hmacHex : HmacFn) (t : WebhookTrigger)
    (payload : Value) (raw_body : Option Bytes)
    (headers : List (String × String)) :
    HandleResult × List TriggerEvent :=
  let signature := dictGet headers t.header_name
  let accept : HandleResult × List TriggerEvent :=
    (.accepted t.trigger_id,
      [⟨t.trigger_id, payload, [("headers", headersValue headers)]⟩])
  match raw_body with
  | some body =>
    if strTruthy t.secret then
      if validate_signature hmacHex t body signature then accept
      else (.rejected "invalid signature", [])
    else accept
  | none => accept

end WebhookTrigger

/-- One registry entry: a trigger with its current lifecycle state and
the behavior of its variant _start method. -/
structure TriggerEntry where
  id : String
  state : TriggerState
  underStart : MethodResult
deriving Repr

/-- Registry status statistics (TriggerRegistry.get_stats): counts
bucketed by status plus a total. -/
structure RegistryStats where
  stopped : Nat
  starting : Nat
  running : Nat
  stopping : Nat
  error : Nat
  total : Nat
deriving DecidableEq, Repr

namespace TriggerRegistry

/-- TriggerRegistry.start_all from genxai/triggers/registry.py: iterate
over the registered triggers in order; skip those already Running; call
start on the rest. An exception raised by start propagates out of the
Python for-loop, so triggers after the failing one are not visited.
Returns the updated entries, the propagated exception if any, and the
ids of triggers whose variant _start was actually invoked. -/
def start_all : List TriggerEntry → List TriggerEntry × Option String × List String
  | [] => ([], none, [])
  | e :: rest =>
    if e.state.status = .running then
      let (rest₂, exc, ran) := start_all rest
      (e :: rest₂, exc, ran)
    else
      let (s₂, exc) := BaseTrigger.start e.state e.underStart
      let ranHere :=
        if e.state.status = .starting then ([] : List String) else [e.id]
      match exc with
      | some msg => ({ e with state := s₂ } :: rest, some msg, ranHere)
      | none =>
        let (rest₂, exc₂, ran) := start_all rest
        ({ e with state := s₂ } :: rest₂, exc₂, ranHere ++ ran)

/-- TriggerRegistry.get_stats: counts of triggers per status value,
with the registry size as total. -/
def get_stats (ts : List TriggerEntry) : RegistryStats where
  stopped := ts.countP fun e => e.state.status = .stopped
  starting := ts.countP fun e => e.state.status = .starting
  running := ts.countP fun e => e.state.status = .running
  stopping := ts.countP fun e => e.state.status = .stopping
  error := ts.countP fun e => e.state.status = .error
  total := ts.length

end TriggerRegistry

/-- One connector registry entry with the behaviors of its overridable
validate_config and _start methods. -/
structure ConnectorEntry where
  id : String
  state : ConnectorState
  validate_config : MethodResult
  underStart : MethodResult
deriving Repr

namespace ConnectorRegistry

/-- ConnectorRegistry.start_all from genxai/connectors/registry.py:
call start on every registered connector in order (start itself no-ops
when Running or Starting); an exception propagates out of the loop so
later connectors are not visited. -/
def start_all : List ConnectorEntry → List ConnectorEntry × Option String × List String
  | [] => ([], none, [])
  | e :: rest =>
    let (s₂, exc) := Connector.start e.state e.validate_config e.underStart
    let ranHere :=
      if e.state.status = .running ∨ e.state.status = .starting then
        ([] : List String)
      else [e.id]
    match exc with
    | some msg => ({ e with state := s₂ } :: rest, some msg, ranHere)
    | none =>
      let (rest₂, exc₂, ran) := start_all rest
      ({ e with state := s₂ } :: rest₂, exc₂, ranHere ++ ran)

end ConnectorRegistry

/-- Configuration of a ScheduleTrigger (genxai/triggers/schedule.py). -/
structure ScheduleTrigger where
  trigger_id : String
  cron : Option String
  interval_seconds : Option Int
  payload : Value
  timezone : String
deriving Repr

/-- The scheduler trigger armed by ScheduleTrigger, a cron trigger or an
interval trigger. -/
inductive ArmedTrigger where
  | cron (expr : String)
  | interval (seconds : Int)
deriving DecidableEq, Repr

namespace ScheduleTrigger

/-- ScheduleTrigger construction: after storing the fields, the
constructor raises ValueError when both cron and interval_seconds are
falsy (None or empty / None or zero). -/
def init (trigger_id : String) (cron : Option String)
    (interval_seconds : Option Int) (payload : Value) (timezone : String) :
    Except String ScheduleTrigger :=
  if strTruthy cron = false ∧ intTruthy interval_seconds = false then
    .error "Either cron or interval_seconds must be provided"
  else .ok ⟨trigger_id, cron, interval_seconds, payload, timezone⟩

/-- The scheduler trigger armed inside ScheduleTrigger subordinate
start: a cron trigger when the cron field is truthy, else an interval
trigger over interval_seconds. -/
def armed (t : ScheduleTrigger) : ArmedTrigger :=
  if strTruthy t.cron then .cron (t.cron.getD "")
  else .interval (t.interval_seconds.getD 0)

end ScheduleTrigger

namespace QueueTrigger

/-- Payload normalization inside QueueTrigger listening loop: a dict
message is used as the payload unchanged, any other message is wrapped
in a one-entry dict under the key "message". -/
def normalizePayload (message : Value) : Value :=
  match message with
  | .dict d => .dict d
  | other => .dict [("message", other)]

/-- The QueueTrigger listening loop, restricted to a finite trace of
received messages: each message is normalized and emitted as a
TriggerEvent with empty metadata. -/
def listen (trigger_id : String) (messages : List Value) :
    List TriggerEvent :=
  messages.map fun m => ⟨trigger_id, normalizePayload m, []⟩

end QueueTrigger

/-- Modelled from the spec: the OutboundRetryJob record
(app.schemas.OutboundRetryJob) is imported by
outbound_retry_queue.py but its declaration is not under src; fields
and defaults follow the spec section 3 OutboundJob (attempts starts at
0, lastError nullable) and the keyword arguments used at the enqueue
construction site. -/
structure OutboundRetryJob where
  id : String
  channel : String
  channel_id : String
  text : String
  thread_id : Option String
  attempts : Int
  max_attempts : Int
  last_error : Option String
deriving DecidableEq, Repr

/-- The injected delivery function of the outbound queue:
(channel, channel_id, text, thread_id) to a status string. -/
abbrev SendFn := String → String → String → Option String → String

/-- Python str.startswith, over the character lists of the strings. -/
def startswith (s pre : String) : Bool :=
  pre.data.isPrefixOf s.data

/-- Configuration of the OutboundRetryQueueService after construction
clamping. -/
structure OutboundService where
  max_attempts : Int
  backoff_seconds : Rat
deriving DecidableEq, Repr

/-- Mutable state of the outbound queue: the FIFO of pending jobs and
the dead-letter list. -/
structure OutboundState where
  queue : List OutboundRetryJob
  dead_letters : List OutboundRetryJob
deriving DecidableEq, Repr

/-- The snapshot record (OutboundRetryQueueSnapshot). -/
structure OutboundSnapshot where
  queued : Nat
  dead_lettered : Nat
  dead_letters : List OutboundRetryJob
deriving DecidableEq, Repr

namespace OutboundRetryQueueService

/-- The constructor of OutboundRetryQueueService: clamps max_attempts
up to at least 1 and backoff_seconds up to at least 0. -/
def init (max_attempts : Int) (backoff_seconds : Rat) : OutboundService :=
  ⟨max max_attempts 1, max backoff_seconds 0⟩

/-- OutboundRetryQueueService.enqueue: builds a job with attempts 0, no
last error, and the service-level max_attempts, and appends it to the
queue tail. The generated uuid-based id is taken as a parameter. -/
def enqueue (svc : OutboundService) (id channel channel_id text : String)
    (thread_id : Option String) (s : OutboundState) :
    OutboundRetryJob × OutboundState :=
  let job : OutboundRetryJob :=
    ⟨id, channel, channel_id, text, thread_id, 0, svc.max_attempts, none⟩
  (job, ⟨s.queue ++ [job], s.dead_letters⟩)

/-- OutboundRetryQueueService.snapshot. -/
def snapshot (s : OutboundState) : OutboundSnapshot :=
  ⟨s.queue.length, s.dead_letters.length, s.dead_letters⟩

/-- One iteration of the worker loop body that found work
(OutboundRetryQueueService subordinate loop): pop the head job, invoke
the delivery function; a result starting with "sent:" discards the job;
otherwise increment attempts, record the error, and either dead-letter
the job (attempts at or above max_attempts) or requeue it at the tail.
An empty queue leaves the state unchanged (the loop just idles). The
second component is the job a delivery was attempted for, if any. -/
def step (send : SendFn) (s : OutboundState) :
    OutboundState × Option OutboundRetryJob :=
  match s.queue with
  | [] => (s, none)
  | job :: rest =>
    let status := send job.channel job.channel_id job.text job.thread_id
    if startswith status "sent:" then (⟨rest, s.dead_letters⟩, some job)
    else
      let job₂ := { job with attempts := job.attempts + 1,
                             last_error := some status }
      if job₂.max_attempts ≤ job₂.attempts then
        (⟨rest, s.dead_letters ++ [job₂]⟩, some job)
      else
        (⟨rest ++ [job₂], s.dead_letters⟩, some job)

/-- Iterated worker steps. -/
def stepN (send : SendFn) (s : OutboundState) : Nat → OutboundState
  | 0 => s
  | n + 1 => stepN send (step send s).1 n

end OutboundRetryQueueService

/-! ## Theorems -/

/-- C6: a push source (connector or trigger variant) configured with no
secret accepts every request regardless of its headers: it emits the
payload with the header map attached as metadata and returns an
accepted result. -/
theorem webhook_no_secret_accepts_all
    (hmacHex : HmacFn) (c : WebhookConnector) (t : WebhookTrigger)
    (payload : Value) (raw_body : Option Bytes)
    (headers : List (String × String))
    (hc : strTruthy c.secret = false) (ht : strTruthy t.secret = false) :
    WebhookConnector.handle_request hmacHex c payload raw_body headers
      = (.accepted c.connector_id,
          [⟨c.connector_id, payload, [("headers", headersValue headers)]⟩])
    ∧ WebhookTrigger.handle_request hmacHex t payload raw_body headers
      = (.accepted t.trigger_id,
          [⟨t.trigger_id, payload, [("headers", headersValue headers)]⟩]) := by
  constructor
  · unfold WebhookConnector.handle_request
    cases raw_body <;> simp [hc]
  · unfold WebhookTrigger.handle_request
    cases raw_body <;> simp [ht]

/-- Witness for C6 at a concrete secretless connector and trigger. -/
theorem webhook_no_secret_accepts_all_witness :
    WebhookConnector.handle_request (fun _ _ _ => "d")
        ⟨"wh", none, "X-GenXAI-Signature", "sha256"⟩
        (.str "p") (some [1, 2]) [("A", "B")]
      = (.accepted "wh",
          [⟨"wh", .str "p", [("headers", headersValue [("A", "B")])]⟩])
    ∧ WebhookTrigger.handle_request (fun _ _ _ => "d")
        ⟨"wt", none, "X-GenXAI-Signature", "sha256"⟩
        (.str "p") (some [1, 2]) [("A", "B")]
      = (.accepted "wt",
          [⟨"wt", .str "p", [("headers", headersValue [("A", "B")])]⟩]) :=
  webhook_no_secret_accepts_all (fun _ _ _ => "d")
    ⟨"wh", none, "X-GenXAI-Signature", "sha256"⟩
    ⟨"wt", none, "X-GenXAI-Signature", "sha256"⟩
    (.str "p") (some [1, 2]) [("A", "B")] rfl rfl

/-- C9: the in-process queue source wraps every non-mapping message as
a one-entry mapping under the key "message", so every emitted payload
is a mapping; receiving the value "hello" emits an event whose payload
is exactly that wrapper. -/
theorem queue_trigger_wraps_non_mapping
    (id : String) (m : Value) (msgs : List Value)
    (hm : m.isDict = false) :
    QueueTrigger.normalizePayload m = .dict [("message", m)]
    ∧ (∀ e ∈ QueueTrigger.listen id msgs, e.payload.isDict = true)
    ∧ QueueTrigger.listen id [.str "hello"]
      = [⟨id, .dict [("message", .str "hello")], []⟩] := by
  refine ⟨?_, ?_, rfl⟩
  · cases m with
    | dict d => simp [Value.isDict] at hm
    | str _ => rfl
    | int _ => rfl
    | bool _ => rfl
    | list _ => rfl
  · intro e he
    simp only [QueueTrigger.listen, List.mem_map] at he
    obtain ⟨msg, _, rfl⟩ := he
    cases msg <;> rfl

/-- Witness for C9 at the concrete message "hello". -/
theorem queue_trigger_wraps_non_mapping_witness :
    QueueTrigger.normalizePayload (.str "hello")
      = .dict [("message", .str "hello")]
    ∧ QueueTrigger.listen "q" [.str "hello"]
      = [⟨"q", .dict [("message", .str "hello")], []⟩] := by
  have h := queue_trigger_wraps_non_mapping "q" (.str "hello")
    [.str "hello"] rfl
  exact ⟨h.1, h.2.2⟩

/-- C7: a delivery function answering with a "sent:" prefix on the
first attempt makes the worker discard the job: the state is left with
an empty queue and no dead letters, so the snapshot reports zero queued
and zero dead-lettered. -/
theorem outbound_sent_first_attempt_discards
    (send : SendFn) (job : OutboundRetryJob)
    (hs : startswith (send job.channel job.channel_id job.text job.thread_id)
        "sent:" = true) :
    OutboundRetryQueueService.step send ⟨[job], []⟩ = (⟨[], []⟩, some job)
    ∧ OutboundRetryQueueService.snapshot
        (OutboundRetryQueueService.step send ⟨[job], []⟩).1 = ⟨0, 0, []⟩ := by
  unfold OutboundRetryQueueService.step
  simp [hs, OutboundRetryQueueService.snapshot]

/-- Witness for C7 at a concrete job and an always-successful delivery
function. -/
theorem outbound_sent_first_attempt_discards_witness :
    OutboundRetryQueueService.step (fun _ _ _ _ => "sent:ok")
        ⟨[⟨"out_1", "slack", "C1", "hi", none, 0, 3, none⟩], []⟩
      = (⟨[], []⟩, some ⟨"out_1", "slack", "C1", "hi", none, 0, 3, none⟩)
    ∧ OutboundRetryQueueService.snapshot
        (OutboundRetryQueueService.step (fun _ _ _ _ => "sent:ok")
          ⟨[⟨"out_1", "slack", "C1", "hi", none, 0, 3, none⟩], []⟩).1
      = ⟨0, 0, []⟩ :=
  outbound_sent_first_attempt_discards (fun _ _ _ _ => "sent:ok")
    ⟨"out_1", "slack", "C1", "hi", none, 0, 3, none⟩ (by decide)

/-- C10: the constructor clamps max_attempts up to at least 1 and
backoff_seconds up to at least 0; every enqueued job starts with zero
attempts and a max_attempts of at least 1, and a job newly appended to
the dead-letter list has received at least one delivery attempt. -/
theorem outbound_init_clamps
    (ma : Int) (b : Rat) (id channel channel_id text : String)
    (thread_id : Option String) (s st : OutboundState) (send : SendFn)
    (hq : ∀ j ∈ st.queue, 0 ≤ j.attempts) :
    1 ≤ (OutboundRetryQueueService.init ma b).max_attempts
    ∧ 0 ≤ (OutboundRetryQueueService.init ma b).backoff_seconds
    ∧ (OutboundRetryQueueService.enqueue (OutboundRetryQueueService.init ma b)
        id channel channel_id text thread_id s).1.attempts = 0
    ∧ 1 ≤ (OutboundRetryQueueService.enqueue
        (OutboundRetryQueueService.init ma b)
        id channel channel_id text thread_id s).1.max_attempts
    ∧ (∀ j ∈ (OutboundRetryQueueService.step send st).1.dead_letters,
        j ∉ st.dead_letters → 1 ≤ j.attempts) := by
  refine ⟨le_max_right ma 1, le_max_right b 0, rfl, le_max_right ma 1, ?_⟩
  intro j hj hnot
  rcases st with ⟨queue, dead⟩
  cases queue with
  | nil => exact absurd hj hnot
  | cons job rest =>
    have h0 : 0 ≤ job.attempts := hq job (List.mem_cons_self job rest)
    unfold OutboundRetryQueueService.step at hj
    dsimp only at hj
    split at hj
    · exact absurd hj hnot
    · split at hj
      · rcases List.mem_append.mp hj with h | h
        · exact absurd h hnot
        · rcases List.mem_singleton.mp h with rfl
          dsimp only
          omega
      · exact absurd hj hnot

/-- Witness for C10 at a negative max_attempts and backoff. -/
theorem outbound_init_clamps_witness :
    1 ≤ (OutboundRetryQueueService.init (-4) (-2)).max_attempts
    ∧ 0 ≤ (OutboundRetryQueueService.init (-4) (-2)).backoff_seconds
    ∧ (OutboundRetryQueueService.enqueue (OutboundRetryQueueService.init (-4) (-2))
        "out_1" "slack" "C1" "hi" none ⟨[], []⟩).1.attempts = 0
    ∧ 1 ≤ (OutboundRetryQueueService.enqueue
        (OutboundRetryQueueService.init (-4) (-2))
        "out_1" "slack" "C1" "hi" none ⟨[], []⟩).1.max_attempts := by
  have h := outbound_init_clamps (-4) (-2) "out_1" "slack" "C1" "hi" none
    ⟨[], []⟩ ⟨[], []⟩ (fun _ _ _ _ => "sent:ok")
    (by intro j hj; cases hj)
  exact ⟨h.1, h.2.1, h.2.2.1, h.2.2.2.1⟩

/-- C8 counterexample: a scheduled source constructed with no cron
expression and the non-positive interval -5 is accepted, although
neither a cron expression nor a positive interval was given. -/
theorem schedule_negative_interval_accepted :
    (ScheduleTrigger.init "t" none (some (-5)) (.dict []) "UTC").isOk = true
    ∧ (-5 : Int) < 0 := by
  exact ⟨rfl, by decide⟩

/-- C8 amended: construction fails with a configuration error exactly
when the cron expression is missing or empty and the interval is
missing or zero (any nonzero interval, including a negative one, is
accepted); when the cron field is truthy it takes precedence over the
interval when arming the scheduler. -/
theorem schedule_init_exclusive_config
    (id : String) (cron : Option String) (n : Option Int) (p : Value)
    (tz : String) (t : ScheduleTrigger) :
    (ScheduleTrigger.init id cron n p tz
        = .error "Either cron or interval_seconds must be provided"
      ↔ (strTruthy cron = false ∧ intTruthy n = false))
    ∧ (ScheduleTrigger.init id cron n p tz = .ok t →
        strTruthy t.cron = true → t.armed = .cron (t.cron.getD ""))
    ∧ (ScheduleTrigger.init id cron n p tz = .ok t →
        strTruthy t.cron = false →
        t.armed = .interval (t.interval_seconds.getD 0)) := by
  refine ⟨?_, ?_, ?_⟩
  · unfold ScheduleTrigger.init
    split
    · exact iff_of_true rfl (by assumption)
    · exact iff_of_false (fun h => Except.noConfusion h) (by assumption)
  · intro _ hcron
    unfold ScheduleTrigger.armed
    rw [hcron]
    rfl
  · intro _ hcron
    unfold ScheduleTrigger.armed
    rw [hcron]
    rfl

/-- Witness for C8 amended: both a cron expression and an interval
given, the armed scheduler trigger is the cron one. -/
theorem schedule_init_exclusive_config_witness :
    (ScheduleTrigger.init "t" (some "0 12 * * *") (some 5) (.dict []) "UTC"
        = .error "Either cron or interval_seconds must be provided"
      ↔ (strTruthy (some "0 12 * * *") = false
          ∧ intTruthy (some (5 : Int)) = false))
    ∧ ScheduleTrigger.armed
        ⟨"t", some "0 12 * * *", some 5, .dict [], "UTC"⟩
      = .cron "0 12 * * *" := by
  have h := schedule_init_exclusive_config "t" (some "0 12 * * *") (some 5)
    (.dict []) "UTC" ⟨"t", some "0 12 * * *", some 5, .dict [], "UTC"⟩
  exact ⟨h.1, h.2.1 rfl rfl⟩

/-- C3 counterexample: calling stop on a source whose status is
Stopping is a no-op that leaves the status Stopping, not Stopped. -/
theorem stop_while_stopping_stays_stopping :
    (Connector.stop ⟨.stopping, none⟩ (.ok ())).1.status = .stopping
    ∧ (BaseTrigger.stop ⟨.stopping⟩ (.ok ())).1.status = .stopping
    ∧ Status.stopping ≠ .stopped := by
  exact ⟨rfl, rfl, by decide⟩

/-- C3 amended: start is a state-preserving no-op while Running or
Starting, stop is a state-preserving no-op while Stopped or Stopping
(so it leaves Stopped exactly when the status already was Stopped), and
a second start directly after a successful start is a no-op. -/
theorem lifecycle_start_stop_idempotent
    (c : ConnectorState) (t : TriggerState) (vb sb ub : MethodResult) :
    (c.status = .running ∨ c.status = .starting →
        Connector.start c vb sb = (c, none))
    ∧ (t.status = .running ∨ t.status = .starting →
        BaseTrigger.start t ub = (t, none))
    ∧ (c.status = .stopped ∨ c.status = .stopping →
        Connector.stop c sb = (c, none))
    ∧ (t.status = .stopped ∨ t.status = .stopping →
        BaseTrigger.stop t ub = (t, none))
    ∧ (c.status = .stopped → (Connector.stop c sb).1.status = .stopped)
    ∧ Connector.start (Connector.start c (.ok ()) (.ok ())).1 vb sb
        = ((Connector.start c (.ok ()) (.ok ())).1, none)
    ∧ BaseTrigger.start (BaseTrigger.start t (.ok ())).1 ub
        = ((BaseTrigger.start t (.ok ())).1, none) := by
  rcases c with ⟨cs, ce⟩
  rcases t with ⟨ts⟩
  cases cs <;> cases ts <;>
    simp [Connector.start, Connector.stop, BaseTrigger.start,
      BaseTrigger.stop]

/-- Witness for C3 amended at a Running connector, a Running trigger
and concrete method behaviors. -/
theorem lifecycle_start_stop_idempotent_witness :
    Connector.start ⟨.running, none⟩ (.ok ()) (.ok ())
      = (⟨.running, none⟩, none)
    ∧ BaseTrigger.start ⟨.running⟩ (.ok ()) = (⟨.running⟩, none)
    ∧ Connector.stop ⟨.stopped, none⟩ (.ok ()) = (⟨.stopped, none⟩, none) := by
  have h := lifecycle_start_stop_idempotent ⟨.running, none⟩ ⟨.running⟩
    (.ok ()) (.ok ()) (.ok ())
  have h₂ := lifecycle_start_stop_idempotent ⟨.stopped, none⟩ ⟨.running⟩
    (.ok ()) (.ok ()) (.ok ())
  exact ⟨h.1 (Or.inl rfl), h.2.1 (Or.inl rfl), h₂.2.2.1 (Or.inl rfl)⟩

/-- C4 counterexample: a trigger retains no record of the start error
message: two failing starts with different messages leave identical
trigger states (the trigger base class has no lastError attribute). -/
theorem trigger_start_forgets_error_message :
    (BaseTrigger.start ⟨.stopped⟩ (.error "boom")).1
      = (BaseTrigger.start ⟨.stopped⟩ (.error "zap")).1
    ∧ "boom" ≠ "zap" := by
  exact ⟨rfl, by decide⟩

/-- C4 amended: for connectors, a failing validate_config or variant
start sets status Error, records the message as lastError and re-raises
it, and success sets Running and clears lastError; for triggers, a
failing variant start sets status Error and re-raises and success sets
Running, but no validate_config step runs and no error message is
recorded on the trigger (its post-start state does not depend on the
message). -/
theorem start_error_recording
    (c : ConnectorState) (t : TriggerState) (sb : MethodResult) (e : String)
    (hc : ¬(c.status = .running ∨ c.status = .starting))
    (ht : ¬(t.status = .running ∨ t.status = .starting)) :
    Connector.start c (.error e) sb = (⟨.error, some e⟩, some e)
    ∧ Connector.start c (.ok ()) (.error e) = (⟨.error, some e⟩, some e)
    ∧ Connector.start c (.ok ()) (.ok ()) = (⟨.running, none⟩, none)
    ∧ BaseTrigger.start t (.error e) = (⟨.error⟩, some e)
    ∧ BaseTrigger.start t (.ok ()) = (⟨.running⟩, none)
    ∧ (∀ e₂, (BaseTrigger.start t (.error e)).1
        = (BaseTrigger.start t (.error e₂)).1) := by
  refine ⟨?_, ?_, ?_, ?_, ?_, ?_⟩ <;>
    first
      | (intro e₂
         unfold BaseTrigger.start
         rw [if_neg ht, if_neg ht])
      | (unfold Connector.start
         rw [if_neg hc])
      | (unfold BaseTrigger.start
         rw [if_neg ht])

/-- Witness for C4 amended at a stopped connector and trigger and the
concrete error message "boom". -/
theorem start_error_recording_witness :
    Connector.start ⟨.stopped, none⟩ (.error "boom") (.ok ())
      = (⟨.error, some "boom"⟩, some "boom")
    ∧ BaseTrigger.start ⟨.stopped⟩ (.error "boom")
      = (⟨.error⟩, some "boom") := by
  have h := start_error_recording ⟨.stopped, none⟩ ⟨.stopped⟩ (.ok ())
    "boom" (by decide) (by decide)
  exact ⟨h.1, h.2.2.2.1⟩

/-- C5 counterexample: with the failing source first in the registry,
start_all aborts at the failure: the variant start of the other source
is never invoked (the invoked-id list holds only the failing id), that
source stays Stopped, and the stats afterwards show no Running source
at all, instead of one Running and one Error. -/
theorem start_all_aborts_on_first_failure :
    TriggerRegistry.start_all
        [⟨"bad", ⟨.stopped⟩, .error "boom"⟩, ⟨"good", ⟨.stopped⟩, .ok ()⟩]
      = ([⟨"bad", ⟨.error⟩, .error "boom"⟩, ⟨"good", ⟨.stopped⟩, .ok ()⟩],
          some "boom", ["bad"])
    ∧ "good" ∉ (TriggerRegistry.start_all
        [⟨"bad", ⟨.stopped⟩, .error "boom"⟩,
          ⟨"good", ⟨.stopped⟩, .ok ()⟩]).2.2
    ∧ (TriggerRegistry.get_stats (TriggerRegistry.start_all
        [⟨"bad", ⟨.stopped⟩, .error "boom"⟩,
          ⟨"good", ⟨.stopped⟩, .ok ()⟩]).1).running = 0
    ∧ (TriggerRegistry.get_stats (TriggerRegistry.start_all
        [⟨"bad", ⟨.stopped⟩, .error "boom"⟩,
          ⟨"good", ⟨.stopped⟩, .ok ()⟩]).1).error = 1 := by
  refine ⟨rfl, ?_, rfl, rfl⟩
  decide

/-- C5 amended: start_all visits sources in registration order and the
first raising source aborts the iteration, propagating its exception;
sources before it are started (so when the failing source is last, the
other ends Running and the stats show one Running and one Error, two
total), while sources after it are not attempted and keep their state.
The connector registry behaves the same way. -/
theorem start_all_partial_failure
    (aid bid m : String) (ts : TriggerState) (tb : MethodResult)
    (cs : ConnectorState) (cvb csb : MethodResult) :
    (TriggerRegistry.start_all
        [⟨aid, ⟨.stopped⟩, .ok ()⟩, ⟨bid, ⟨.stopped⟩, .error m⟩]
      = ([⟨aid, ⟨.running⟩, .ok ()⟩, ⟨bid, ⟨.error⟩, .error m⟩],
          some m, [aid, bid]))
    ∧ TriggerRegistry.get_stats
        [⟨aid, ⟨.running⟩, .ok ()⟩, ⟨bid, ⟨.error⟩, .error m⟩]
      = ⟨0, 0, 1, 0, 1, 2⟩
    ∧ (TriggerRegistry.start_all
        [⟨aid, ⟨.stopped⟩, .error m⟩, ⟨bid, ts, tb⟩]
      = ([⟨aid, ⟨.error⟩, .error m⟩, ⟨bid, ts, tb⟩], some m, [aid]))
    ∧ (ConnectorRegistry.start_all
        [⟨aid, ⟨.stopped, none⟩, .ok (), .error m⟩, ⟨bid, cs, cvb, csb⟩]
      = ([⟨aid, ⟨.error, some m⟩, .ok (), .error m⟩, ⟨bid, cs, cvb, csb⟩],
          some m, [aid])) := by
  refine ⟨rfl, ?_, ?_, rfl⟩
  · unfold TriggerRegistry.get_stats
    simp [List.countP, List.countP.go]
  · cases ts with
    | mk s => cases s <;> rfl

/-- Helper: with a truthy secret, connector validate_signature is false
whenever the supplied signature differs from the expected header
value. -/
theorem conn_validate_signature_false
    (hmacHex : HmacFn) (c : WebhookConnector) (body : Bytes)
    (sig : Option String) (hc : strTruthy c.secret = true)
    (hs : sig ≠ some (WebhookConnector.expectedSignature hmacHex c body)) :
    WebhookConnector.validate_signature hmacHex c body sig = false := by
  unfold WebhookConnector.validate_signature
  rw [hc]
  cases sig with
  | none => rfl
  | some s =>
    have hne : WebhookConnector.expectedSignature hmacHex c body ≠ s :=
      fun h => hs (by rw [h])
    by_cases he : s = ""
    · simp [he]
    · simp [he, hne]

/-- Helper: with a truthy secret, trigger validate_signature is false
whenever the supplied signature differs from the expected header
value. -/
theorem trig_validate_signature_false
    (hmacHex : HmacFn) (t : WebhookTrigger) (body : Bytes)
    (sig : Option String) (ht : strTruthy t.secret = true)
    (hs : sig ≠ some (WebhookTrigger.expectedSignature hmacHex t body)) :
    WebhookTrigger.validate_signature hmacHex t body sig = false := by
  unfold WebhookTrigger.validate_signature
  rw [ht]
  cases sig with
  | none => rfl
  | some s =>
    have hne : WebhookTrigger.expectedSignature hmacHex t body ≠ s :=
      fun h => hs (by rw [h])
    by_cases he : s = ""
    · simp [he]
    · simp [he, hne]

/-- C1: a push source (connector or trigger variant) configured with a
secret, handling a request that carries a raw body, rejects the request
whenever its signature header is missing or its value differs from
hash_alg=hexdigest of the HMAC of the secret over the raw body: the
result is rejected with a reason and no event is emitted. -/
theorem webhook_secret_rejects_bad_signature
    (hmacHex : HmacFn) (c : WebhookConnector) (t : WebhookTrigger)
    (payload : Value) (body : Bytes) (headers : List (String × String))
    (hc : strTruthy c.secret = true)
    (ht : strTruthy t.secret = true)
    (hcs : dictGet headers c.header_name ≠
        some (WebhookConnector.expectedSignature hmacHex c body))
    (hts : dictGet headers t.header_name ≠
        some (WebhookTrigger.expectedSignature hmacHex t body)) :
    WebhookConnector.handle_request hmacHex c payload (some body) headers
      = (.rejected "invalid signature", [])
    ∧ WebhookTrigger.handle_request hmacHex t payload (some body) headers
      = (.rejected "invalid signature", []) := by
  constructor
  · have hv := conn_validate_signature_false hmacHex c body
      (dictGet headers c.header_name) hc hcs
    unfold WebhookConnector.handle_request
    simp [hc, hv]
  · have hv := trig_validate_signature_false hmacHex t body
      (dictGet headers t.header_name) ht hts
    unfold WebhookTrigger.handle_request
    simp [ht, hv]

/-- Witness for C1 at a concrete secret, raw body and wrong header
value (the abstract hex digest returns "d", so the expected header
value is sha256=d and the supplied one is "bad"). -/
theorem webhook_secret_rejects_bad_signature_witness :
    WebhookConnector.handle_request (fun _ _ _ => "d")
        ⟨"wh", some "s", "X-GenXAI-Signature", "sha256"⟩
        (.str "p") (some [1, 2]) [("X-GenXAI-Signature", "bad")]
      = (.rejected "invalid signature", [])
    ∧ WebhookTrigger.handle_request (fun _ _ _ => "d")
        ⟨"wt", some "s", "X-GenXAI-Signature", "sha256"⟩
        (.str "p") (some [1, 2]) [("X-GenXAI-Signature", "bad")]
      = (.rejected "invalid signature", []) :=
  webhook_secret_rejects_bad_signature (fun _ _ _ => "d")
    ⟨"wh", some "s", "X-GenXAI-Signature", "sha256"⟩
    ⟨"wt", some "s", "X-GenXAI-Signature", "sha256"⟩
    (.str "p") [1, 2] [("X-GenXAI-Signature", "bad")]
    (by decide) (by decide) (by decide) (by decide)


/-- Helper: a worker step keeps every queued job strictly under its
attempt budget. -/
theorem step_queue_attempts_lt (send : SendFn) (s : OutboundState)
    (hq : ∀ j ∈ s.queue, j.attempts < j.max_attempts) :
    ∀ j ∈ (OutboundRetryQueueService.step send s).1.queue,
      j.attempts < j.max_attempts := by
  rcases s with ⟨queue, dead⟩
  cases queue with
  | nil => exact hq
  | cons job rest =>
    intro j hj
    unfold OutboundRetryQueueService.step at hj
    dsimp only at hj
    split at hj
    · exact hq j (List.mem_cons_of_mem job hj)
    · split at hj
      · exact hq j (List.mem_cons_of_mem job hj)
      · rcases List.mem_append.mp hj with h | h
        · exact hq j (List.mem_cons_of_mem job h)
        · rcases List.mem_singleton.mp h with rfl
          rename_i hlt
          dsimp only at hlt ⊢
          omega

/-- Helper: a worker step only appends to the dead-letter list. -/
theorem step_dead_letters_prefix (send : SendFn) (s : OutboundState) :
    ∃ tail, (OutboundRetryQueueService.step send s).1.dead_letters
      = s.dead_letters ++ tail := by
  rcases s with ⟨queue, dead⟩
  cases queue with
  | nil => exact ⟨[], (List.append_nil dead).symm⟩
  | cons job rest =>
    unfold OutboundRetryQueueService.step
    dsimp only
    split
    · exact ⟨[], (List.append_nil dead).symm⟩
    · split
      · exact ⟨_, rfl⟩
      · exact ⟨[], (List.append_nil dead).symm⟩

/-- Helper: a job that a worker step dead-letters was already a dead
letter or has spent exactly its attempt budget. -/
theorem step_dead_letters_mem (send : SendFn) (s : OutboundState)
    (hq : ∀ j ∈ s.queue, j.attempts < j.max_attempts) :
    ∀ j ∈ (OutboundRetryQueueService.step send s).1.dead_letters,
      j ∈ s.dead_letters ∨ j.attempts = j.max_attempts := by
  rcases s with ⟨queue, dead⟩
  cases queue with
  | nil => exact fun j hj => Or.inl hj
  | cons job rest =>
    intro j hj
    have h0 : job.attempts < job.max_attempts :=
      hq job (List.mem_cons_self job rest)
    unfold OutboundRetryQueueService.step at hj
    dsimp only at hj
    split at hj
    · exact Or.inl hj
    · split at hj
      · rcases List.mem_append.mp hj with h | h
        · exact Or.inl h
        · rcases List.mem_singleton.mp h with rfl
          right
          rename_i hge
          dsimp only at hge ⊢
          omega
      · exact Or.inl hj

/-- Helper: a worker step on an empty queue attempts no delivery and
changes nothing. -/
theorem step_empty_queue (send : SendFn) (s : OutboundState)
    (h : s.queue = []) :
    OutboundRetryQueueService.step send s = (s, none) := by
  rcases s with ⟨queue, dead⟩
  dsimp only at h
  subst h
  rfl

/-- Helper: iterated worker steps on an empty queue change nothing. -/
theorem stepN_empty_queue (send : SendFn) (s : OutboundState)
    (h : s.queue = []) :
    ∀ n, OutboundRetryQueueService.stepN send s n = s := by
  intro n
  induction n with
  | zero => rfl
  | succ k ih =>
    show OutboundRetryQueueService.stepN send
      (OutboundRetryQueueService.step send s).1 k = s
    rw [step_empty_queue send s h]
    exact ih

/-- Helper: iterated worker steps split over addition of counts. -/
theorem stepN_add (send : SendFn) (m n : Nat) :
    ∀ s : OutboundState, OutboundRetryQueueService.stepN send s (m + n)
      = OutboundRetryQueueService.stepN send
          (OutboundRetryQueueService.stepN send s m) n := by
  induction m with
  | zero =>
    intro s
    rw [Nat.zero_add]
    exact rfl
  | succ k ih =>
    intro s
    have h₁ : k + 1 + n = (k + n) + 1 := by omega
    rw [h₁]
    show OutboundRetryQueueService.stepN send
      (OutboundRetryQueueService.step send s).1 (k + n) = _
    rw [ih]
    exact rfl

/-- C2: before any requeue the requeued job satisfies attempts at most
(indeed strictly below) max_attempts; the dead-letter list is
append-only and a newly dead-lettered job has attempts equal to
max_attempts; a job with max_attempts 3 whose delivery always fails
ends, after three worker iterations, dead-lettered with attempts 3, and
from then on the state is fixed and no further delivery is attempted. -/
theorem outbound_retry_attempts_invariant
    (send : SendFn) (s : OutboundState)
    (hq : ∀ j ∈ s.queue, j.attempts < j.max_attempts) :
    (∀ j ∈ (OutboundRetryQueueService.step send s).1.queue,
        j.attempts < j.max_attempts)
    ∧ (∀ j ∈ (OutboundRetryQueueService.step send s).1.queue,
        j.attempts ≤ j.max_attempts)
    ∧ (∃ tail, (OutboundRetryQueueService.step send s).1.dead_letters
        = s.dead_letters ++ tail)
    ∧ (∀ j ∈ (OutboundRetryQueueService.step send s).1.dead_letters,
        j ∈ s.dead_letters ∨ j.attempts = j.max_attempts)
    ∧ (s.queue = [] → OutboundRetryQueueService.step send s = (s, none))
    ∧ OutboundRetryQueueService.stepN (fun _ _ _ _ => "failed:boom")
        (OutboundRetryQueueService.enqueue (OutboundRetryQueueService.init 3 1)
          "out_1" "slack" "C1" "hi" none ⟨[], []⟩).2 3
      = ⟨[], [⟨"out_1", "slack", "C1", "hi", none, 3, 3, some "failed:boom"⟩]⟩
    ∧ (∀ n, OutboundRetryQueueService.stepN (fun _ _ _ _ => "failed:boom")
        (OutboundRetryQueueService.enqueue (OutboundRetryQueueService.init 3 1)
          "out_1" "slack" "C1" "hi" none ⟨[], []⟩).2 (3 + n)
      = ⟨[], [⟨"out_1", "slack", "C1", "hi", none, 3, 3, some "failed:boom"⟩]⟩)
    ∧ (OutboundRetryQueueService.step (fun _ _ _ _ => "failed:boom")
        ⟨[], [⟨"out_1", "slack", "C1", "hi", none, 3, 3,
          some "failed:boom"⟩]⟩).2 = none := by
  have hrun : OutboundRetryQueueService.stepN (fun _ _ _ _ => "failed:boom")
      (OutboundRetryQueueService.enqueue (OutboundRetryQueueService.init 3 1)
        "out_1" "slack" "C1" "hi" none ⟨[], []⟩).2 3
      = ⟨[], [⟨"out_1", "slack", "C1", "hi", none, 3, 3,
          some "failed:boom"⟩]⟩ := by decide
  refine ⟨step_queue_attempts_lt send s hq,
    fun j hj => le_of_lt (step_queue_attempts_lt send s hq j hj),
    step_dead_letters_prefix send s,
    step_dead_letters_mem send s hq,
    step_empty_queue send s,
    hrun, ?_, rfl⟩
  intro n
  rw [stepN_add (fun _ _ _ _ => "failed:boom") 3 n, hrun]
  exact stepN_empty_queue (fun _ _ _ _ => "failed:boom") _ rfl n

/-- Witness for C2 at the always-failing delivery function and the
freshly enqueued job with max_attempts 3. -/
theorem outbound_retry_attempts_invariant_witness :
    (∀ j ∈ (OutboundRetryQueueService.enqueue
        (OutboundRetryQueueService.init 3 1)
        "out_1" "slack" "C1" "hi" none ⟨[], []⟩).2.queue,
      j.attempts < j.max_attempts)
    ∧ OutboundRetryQueueService.stepN (fun _ _ _ _ => "failed:boom")
        (OutboundRetryQueueService.enqueue (OutboundRetryQueueService.init 3 1)
          "out_1" "slack" "C1" "hi" none ⟨[], []⟩).2 3
      = ⟨[], [⟨"out_1", "slack", "C1", "hi", none, 3, 3,
          some "failed:boom"⟩]⟩ := by
  have h := outbound_retry_attempts_invariant (fun _ _ _ _ => "failed:boom")
    (OutboundRetryQueueService.enqueue (OutboundRetryQueueService.init 3 1)
      "out_1" "slack" "C1" "hi" none ⟨[], []⟩).2 (by decide)
  exact ⟨by decide, h.2.2.2.2.2.1⟩

end GenXAI
